import Mathlib

/-!
Verification of the prompt-chain orchestrator (`prompts_handler.py`,
`api_integration.py`, `models.py`, `main.py`).

Shallow embedding: provider calls are modelled by oracles (an `Env` of
functions giving the outcome of each external call), `asyncio.sleep`
delays are recorded in an explicit list of sleep durations, and the
mutable object state (`RetryHandler.error_log`, `ModelB.current_model`)
is threaded explicitly.  Python exceptions become `Except` values.
-/

namespace ModelConfig

/-- Default value of `MODELO_A_PRINCIPAL` (env var `MODELO_A_LOGICO`). -/
def MODELO_A_PRINCIPAL : String := "gemini-2.5-pro"

/-- Default value of `MODELO_B_VISION`. -/
def MODELO_B_VISION : String := "qwen/qwen-2-vl-72b-instruct"

/-- Default value of `MAX_RETRIES`. -/
def MAX_RETRIES : Nat := 3

/-- Default value of `RETRY_DELAY_SECONDS`. -/
def RETRY_DELAY_SECONDS : Nat := 2

/-- Default value of `PERFIL_ANDY`. -/
def PERFIL_ANDY : String :=
  "29 años, rubia, ojos azules, física atlético-femenino, sensual, alegre"

/-- Default value of `PERFIL_CONY`. -/
def PERFIL_CONY : String :=
  "21 años, latina, piel canela, ojos verdes, cabello negro, física atlético-femenino, mirada seductora"

end ModelConfig

namespace PromptTemplates

/-- Constant `PromptTemplates.SYSTEM_PROMPT_A` (its content is irrelevant to the claims; kept as
the literal constant of `models.py`, abbreviated to its first line plus a
marker since no claim inspects its interior). -/
def SYSTEM_PROMPT_A : String :=
  "Eres un experto fotógrafo y constructor de prompts ultrarrealistas. Tu tarea es generar prompts fotográficos detallados siguiendo estas reglas:"

/-- Constant `PromptTemplates.SYSTEM_PROMPT_B` (first sentence; content irrelevant to the claims). -/
def SYSTEM_PROMPT_B : String :=
  "Eres un experto analista de imágenes con enfoque fotográfico. Tu tarea es describir imágenes en términos técnicos para uso como contexto en construcción de prompts."

/-- Constant `PromptTemplates.VIDEO_PROMPT_TEMPLATE`. -/
def VIDEO_PROMPT_TEMPLATE : String :=
  "Basándote en el siguiente prompt fotográfico, genera una sugerencia de animación describiendo:\n- Movimiento de cámara (Zoom in/out, Pan, Tilt, dolly)\n- Acción del sujeto (parpadeo, movimiento, giro)\n- Duración aproximada (segundos)\n- Transiciones y efectos\n\nResponde en un párrafo compacto sin separaciones."

end PromptTemplates

/-- One entry of `RetryHandler.error_log`:
the Python dict with keys attempt, error and model (the model key comes from
`kwargs.get("model", "unknown")`). -/
structure ErrorEntry where
  attempt : Nat
  error : String
  model : String
deriving Repr, DecidableEq

/-- The exception raised at the end of `execute_with_retry`:
`Exception(f"Fallos después de ... intentos: ...")`, carrying the retry count
and the last underlying error (`none` when no attempt ever ran). -/
inductive RetryError where
  | exhausted (maxRetries : Nat) (lastError : Option String)
deriving Repr, DecidableEq

/-- State of `RetryHandler.__init__`: `max_retries`, `delay`, and the mutable
`error_log` list. -/
structure RetryHandler where
  max_retries : Nat
  delay : Nat
  error_log : List ErrorEntry
deriving Repr, DecidableEq

/-- A fresh `RetryHandler()` with the `ModelConfig` defaults. -/
def RetryHandler.new : RetryHandler :=
  ⟨ModelConfig.MAX_RETRIES, ModelConfig.RETRY_DELAY_SECONDS, []⟩

/-- The `for attempt in range(1, self.max_retries + 1)` loop of
`RetryHandler.execute_with_retry`.  The operation `f` is given the attempt
number and the current side-effect state `s` (Unit for stateless
operations); each failed attempt appends an `ErrorEntry` to the log and, if
`attempt < maxR`, records a sleep of `delay * 2 ^ (attempt - 1)`.
`remaining` counts the loop iterations left (`attempt + remaining = maxR + 1`
at every call). -/
def executeAttempts {σ α : Type} (f : Nat → σ → Except String α × σ)
    (delay maxR : Nat) (mdl : String) :
    Nat → Nat → σ → List ErrorEntry → List Nat → Option String →
    Except RetryError α × σ × List ErrorEntry × List Nat
  | 0, _attempt, s, log, sleeps, lastErr =>
    (Except.error (RetryError.exhausted maxR lastErr), s, log, sleeps)
  | remaining + 1, attempt, s, log, sleeps, _lastErr =>
    match f attempt s with
    | (Except.ok v, s1) => (Except.ok v, s1, log, sleeps)
    | (Except.error e, s1) =>
      executeAttempts f delay maxR mdl remaining (attempt + 1) s1
        (log ++ [⟨attempt, e, mdl⟩])
        (if attempt < maxR then sleeps ++ [delay * 2 ^ (attempt - 1)] else sleeps)
        (some e)

/-- Embedding of `RetryHandler.execute_with_retry(self, func, *args, **kwargs)`.
Returns the result, the final side-effect state, the updated `error_log`,
and the list of back-off sleeps performed. -/
def RetryHandler.execute_with_retry {σ α : Type} (h : RetryHandler)
    (f : Nat → σ → Except String α × σ) (mdl : String) (s : σ) :
    Except RetryError α × σ × List ErrorEntry × List Nat :=
  let r := executeAttempts f h.delay h.max_retries mdl h.max_retries 1 s h.error_log [] none
  r

/-- Specialization of `execute_with_retry` for a stateless operation (the `ModelA` call sites,
where `func` closes only over immutable data): the operation is just the
outcome of each attempt. -/
def RetryHandler.execute_pure {α : Type} (h : RetryHandler)
    (f : Nat → Except String α) (mdl : String) :
    Except RetryError α × List ErrorEntry × List Nat :=
  let r := h.execute_with_retry (fun a _ => (f a, ())) mdl ()
  (r.1, r.2.2)

/-- Arguments of one `OpenRouterAPI.generate_text(prompt, model, system_prompt,
temperature)` call. -/
structure ORCall where
  prompt : String
  model : String
  system_prompt : Option String
  temperature : Rat
deriving Repr, DecidableEq

/-- Oracles giving the outcome of each external provider round trip.  A call
is identified by its arguments plus a call/attempt index (the retry loops
re-issue the same arguments, and consecutive attempts may have different
outcomes). `Except.error` models a raised exception. -/
structure Env where
  gemini : Nat → String → Except String String
  openrouter : Nat → ORCall → Except String String

namespace ModelA

/-- Instance state of `ModelA`: its private `RetryHandler` and `current_model`
(set to `ModelConfig.MODELO_A_PRINCIPAL` in `__init__` and never reassigned). -/
structure State where
  retry_handler : RetryHandler
  current_model : String
deriving Repr, DecidableEq

/-- Constructor `ModelA()`. -/
def State.new : State :=
  ⟨RetryHandler.new, ModelConfig.MODELO_A_PRINCIPAL⟩

/-- Embedding of `ModelA._build_characters_context`. -/
def build_characters_context (personajes : List String) : String :=
  let context : List String :=
    (if personajes.contains "andy" then
      ["Andy: " ++ ModelConfig.PERFIL_ANDY] else []) ++
    (if personajes.contains "cony" then
      ["Cony: " ++ ModelConfig.PERFIL_CONY] else [])
  if context.isEmpty then "Sin personajes específicos"
  else String.intercalate "\n" context

/-- Stated by the spec (for comparison with `build_characters_context`,
which is translated from the source): character keys are "resolved by key
into a context string joined by newline, in request order, omitting unknown
keys silently". -/
def spec_characters_context (personajes : List String) : String :=
  let context : List String := personajes.filterMap (fun k =>
    if k = "andy" then some ("Andy: " ++ ModelConfig.PERFIL_ANDY)
    else if k = "cony" then some ("Cony: " ++ ModelConfig.PERFIL_CONY)
    else none)
  if context.isEmpty then "Sin personajes específicos"
  else String.intercalate "\n" context

/-- Embedding of `ModelA._build_user_message`.  An empty `image_analysis` string is falsy
in Python, so the analysis block is added only for a non-empty value. -/
def build_user_message (idea style characters_context : String)
    (image_analysis : Option String) : String :=
  let message :=
    "\nConstruir un prompt fotográfico ultra-detallado según estas especificaciones:\n\n**IDEA/DESCRIPCIÓN DEL USUARIO:**\n"
    ++ idea ++ "\n\n**ESTILO ARTÍSTICO:**\n" ++ style
    ++ "\n\n**PERSONAJES (si aplica):**\n" ++ characters_context ++ "\n"
  let message :=
    match image_analysis with
    | some ia =>
      if ia.isEmpty then message
      else message ++ "\n**ANÁLISIS DE IMAGEN (Referencia Visual):**\n" ++ ia ++ "\n"
    | none => message
  message ++ "\n**INSTRUCCIONES:**\n" ++ PromptTemplates.SYSTEM_PROMPT_A
    ++ "\n\nGenera el prompt final en ESPAÑOL, en un SOLO PÁRRAFO, incluyendo todos los elementos técnicos fotográficos, descripción del personaje (si aplica), entorno, luz, estilo artístico e inspiraciones."

/-- Embedding of `personajes = personajes or ["ninguno"]` (Python strings may
equally be single-quoted): both `None` and the falsy empty list are replaced
by the one-element list `ninguno`. -/
def resolve_personajes : Option (List String) → List String
  | none => ["ninguno"]
  | some [] => ["ninguno"]
  | some l => l

/-- The combined user message `build_prompt` sends to the providers. -/
def user_message_of (idea style : String) (personajes : Option (List String))
    (image_analysis : Option String) : String :=
  build_user_message idea style
    (build_characters_context (resolve_personajes personajes)) image_analysis

/-- The instruction text `_generate_video_prompt` sends. -/
def video_prompt_text (prompt_es : String) : String :=
  PromptTemplates.VIDEO_PROMPT_TEMPLATE
    ++ "\n\nPrompt fotográfico original:\n" ++ prompt_es
    ++ "\n\nAhora genera la sugerencia específica de animación."

/-- The static sentence returned by `_generate_video_prompt` when both
Gemini and the OpenRouter fallback fail. -/
def VIDEO_FALLBACK : String :=
  "Cámara realiza un zoom suave hacia el sujeto principal. Luz envolvente con movimiento de pan sutil. Duración: 4-6 segundos. Transición suave al final."

/-- Embedding of `ModelA._generate_video_prompt`: Gemini first, OpenRouter second, then
the static sentence.  Every exception is caught, so the result is a plain
`String` — the function cannot fail. -/
def generate_video_prompt (env : Env) (prompt_es : String) : String :=
  match env.gemini 1 (video_prompt_text prompt_es) with
  | Except.ok response => response
  | Except.error _e =>
    match env.openrouter 1
        ⟨video_prompt_text prompt_es, ModelConfig.MODELO_B_VISION, none,
         (5 : Rat)/10⟩ with
    | Except.ok response => response
    | Except.error _e2 => VIDEO_FALLBACK

/-- The exception `build_prompt` re-raises when the OpenRouter fallback for
the photographic prompt also fails (spec name: `PromptGenerationFailed`). -/
inductive BuildError where
  | promptGenerationFailed (error : String)
deriving Repr, DecidableEq

/-- The dictionary returned by `ModelA.build_prompt`. -/
structure BuildResult where
  prompt_es : String
  prompt_video : String
  model_used : String
  primary_model : String
  primary_status : String
  fallback_model : Option String
deriving Repr, DecidableEq

/-- Embedding of `ModelA.build_prompt`.  Returns the result (or re-raised fallback
exception), the updated instance state, and the back-off sleeps performed
by the Gemini retry loop. -/
def build_prompt (st : State) (env : Env) (idea style : String)
    (personajes : Option (List String)) (image_analysis : Option String) :
    Except BuildError BuildResult × State × List Nat :=
  let user_message := user_message_of idea style personajes image_analysis
  let r := st.retry_handler.execute_pure
    (fun attempt => env.gemini attempt user_message) "unknown"
  let st1 : State :=
    { st with retry_handler := { st.retry_handler with error_log := r.2.1 } }
  let sleeps := r.2.2
  match r.1 with
  | Except.ok prompt_es =>
    let prompt_video := generate_video_prompt env prompt_es
    (Except.ok
      ⟨prompt_es, prompt_video, st.current_model, st.current_model,
       "success", none⟩, st1, sleeps)
  | Except.error _retryErr =>
    match env.openrouter 1
        ⟨user_message, ModelConfig.MODELO_B_VISION,
         some PromptTemplates.SYSTEM_PROMPT_A, (7 : Rat)/10⟩ with
    | Except.ok prompt_es =>
      -- The source wraps `_generate_video_prompt` in a further try/except,
      -- but `_generate_video_prompt` already handles all its failures
      -- internally (it is a total String), so that handler cannot fire.
      let prompt_video := generate_video_prompt env prompt_es
      (Except.ok
        ⟨prompt_es, prompt_video,
         "openrouter/" ++ ModelConfig.MODELO_B_VISION, st.current_model,
         "failed", some ModelConfig.MODELO_B_VISION⟩, st1, sleeps)
    | Except.error e_fallback =>
      (Except.error (BuildError.promptGenerationFailed e_fallback), st1, sleeps)

/-- The fallback `OpenRouterAPI.generate_text` call `build_prompt` issues
for the photographic prompt when the Gemini retry loop is exhausted. -/
def fallback_call (user_message : String) : ORCall :=
  ⟨user_message, ModelConfig.MODELO_B_VISION,
   some PromptTemplates.SYSTEM_PROMPT_A, (7 : Rat)/10⟩

/-- The `OpenRouterAPI.generate_text` call `_generate_video_prompt` issues
when its Gemini call fails. -/
def video_call (prompt_es : String) : ORCall :=
  ⟨video_prompt_text prompt_es, ModelConfig.MODELO_B_VISION, none,
   (5 : Rat)/10⟩

end ModelA

namespace ModelB

/-- The id of the backup vision model hard-coded in `_analyze_with_api`. -/
def BACKUP_MODEL : String := "meta-llama/llama-3-vision-free"

/-- The fixed technical-analysis instruction of `analyze_image` (kept as the
literal constant of `prompts_handler.py`, abbreviated to its first line
since no claim inspects its interior). -/
def ANALYSIS_PROMPT : String :=
  "Analiza esta imagen con enfoque fotográfico profesional:"

/-- Instance state of `ModelB`: its private `RetryHandler` and the mutable
`current_model` (initially `ModelConfig.MODELO_B_VISION`, reassigned to
`BACKUP_MODEL` after a successful backup call). -/
structure State where
  retry_handler : RetryHandler
  current_model : String
deriving Repr, DecidableEq

/-- Constructor `ModelB()`. -/
def State.new : State :=
  ⟨RetryHandler.new, ModelConfig.MODELO_B_VISION⟩

/-- Embedding of `ModelB._analyze_with_api`, as the operation handed to
`execute_with_retry`: it receives the attempt number and the threaded side
effects — the mutable `current_model` plus the trace of OpenRouter calls
issued so far (recorded for specification purposes).  It first calls the
current model, and on failure calls the backup model once; a successful
backup call reassigns `current_model`. -/
def analyze_with_api (env : Env) (attempt : Nat)
    (s : String × List ORCall) (prompt : String) :
    Except String String × (String × List ORCall) :=
  let c1 : ORCall :=
    ⟨prompt, s.1, some PromptTemplates.SYSTEM_PROMPT_B, (5 : Rat)/10⟩
  match env.openrouter attempt c1 with
  | Except.ok response => (Except.ok response, (s.1, s.2 ++ [c1]))
  | Except.error _e =>
    let c2 : ORCall :=
      ⟨prompt, BACKUP_MODEL, some PromptTemplates.SYSTEM_PROMPT_B, (5 : Rat)/10⟩
    match env.openrouter attempt c2 with
    | Except.ok response =>
      (Except.ok response, (BACKUP_MODEL, s.2 ++ [c1, c2]))
    | Except.error e2 => (Except.error e2, (s.1, s.2 ++ [c1, c2]))

/-- The OpenRouter call `_analyze_with_api` issues against a model `m`. -/
def vision_call (prompt m : String) : ORCall :=
  ⟨prompt, m, some PromptTemplates.SYSTEM_PROMPT_B, (5 : Rat)/10⟩

/-- Embedding of `ModelB.analyze_image`: runs the analysis under the
`RetryHandler` (the final `except` clause of the source merely logs and
re-raises).  Returns the analysis (or the retry exception), the updated
instance state, the trace of OpenRouter calls, and the back-off sleeps. -/
def analyze_image (st : State) (env : Env) :
    Except RetryError String × State × List ORCall × List Nat :=
  let r := st.retry_handler.execute_with_retry
    (fun attempt s => analyze_with_api env attempt s ANALYSIS_PROMPT)
    "unknown" (st.current_model, ([] : List ORCall))
  (r.1, ⟨{ st.retry_handler with error_log := r.2.2.1 }, r.2.1.1⟩,
   r.2.1.2, r.2.2.2)

end ModelB

namespace Orchestrator

/-- Instance state of `PromptChainOrchestrator`: the `ModelA` and `ModelB` instances
created once in `__init__` (`main.py` constructs a single module-level
orchestrator shared by every request of the process). -/
structure State where
  model_a : ModelA.State
  model_b : ModelB.State
deriving Repr, DecidableEq

/-- Constructor `PromptChainOrchestrator()` (also the module-level
`orchestrator = PromptChainOrchestrator()` of `main.py`). -/
def State.new : State :=
  ⟨ModelA.State.new, ModelB.State.new⟩

/-- Embedding of `PromptChainOrchestrator.process_request`.  Step 1: if an image is
present (and non-empty — `if image:` is false for `b""`), analyze it with
`ModelB`, treating any failure as `image_analysis = None`.  Step 2: build
the prompts with `ModelA`, propagating any failure. -/
def process_request (st : State) (env : Env) (idea style : String)
    (personajes : Option (List String)) (image : Option (List Nat)) :
    Except ModelA.BuildError ModelA.BuildResult × State × List Nat :=
  let step1 : Option String × ModelB.State :=
    match image with
    | some img =>
      if img.isEmpty then (none, st.model_b)
      else
        let r := ModelB.analyze_image st.model_b env
        match r.1 with
        | Except.ok analysis => (some analysis, r.2.1)
        | Except.error _e => (none, r.2.1)
    | none => (none, st.model_b)
  let rA := ModelA.build_prompt st.model_a env idea style personajes step1.1
  (rA.1, ⟨rA.2.1, step1.2⟩, rA.2.2)

end Orchestrator

namespace GeminiAPI

/-- One element of the parts list of a candidate: a JSON object whose
`text` key may be absent. -/
structure Part where
  text : Option String
deriving Repr, DecidableEq

/-- Value of the key `content` of a candidate: its `parts` key may be absent. -/
structure Content where
  parts : Option (List Part)
deriving Repr, DecidableEq

/-- One element of the candidates list: the `content` key may be absent. -/
structure Candidate where
  content : Option Content
deriving Repr, DecidableEq

/-- The parsed JSON body of a 200 response: the `candidates` key may be
absent. -/
structure Data where
  candidates : Option (List Candidate)
deriving Repr, DecidableEq

/-- The text-extraction tail of `GeminiAPI.generate_text` (lines 86–93):
given a successfully parsed 200 response, return
`candidate["content"]["parts"][0].get("text", "")` when
the candidates list is present and non-empty and the candidate has a
content object with a parts key; an empty
`parts` list raises `IndexError`; otherwise raise
`"No se obtuvo texto de la respuesta de Gemini"`.  Note that a present but
empty (or absent) `text` value is returned as the *successful* result `""`. -/
def extract_text (data : Data) : Except String String :=
  match data.candidates with
  | some (candidate :: _) =>
    match candidate.content with
    | some content =>
      match content.parts with
      | some (part :: _) => Except.ok (part.text.getD "")
      | some [] => Except.error "IndexError: list index out of range"
      | none => Except.error "No se obtuvo texto de la respuesta de Gemini"
    | none => Except.error "No se obtuvo texto de la respuesta de Gemini"
  | _ => Except.error "No se obtuvo texto de la respuesta de Gemini"

end GeminiAPI

namespace OpenRouterAPI

/-- Outcome of one HTTP round trip of `OpenRouterAPI.generate_text`:
a `requests` timeout, another raised exception (non-2xx status, network
error), a 200 body without usable `choices`, or a 200 body with text. -/
inductive Response where
  | timeout
  | httpError (msg : String)
  | okNoChoices
  | okText (text : String)
deriving Repr, DecidableEq

/-- Embedding of `OpenRouterAPI.generate_text`, fuel-indexed.  Here `responses round` is the
outcome of the `round`-th HTTP round trip (the arguments are identical on
every round, so only the round number distinguishes calls).  On a timeout
the source sleeps 2 seconds and calls itself recursively with the same
arguments — there is no recursion bound, which the embedding makes visible
as fuel: `none` means the computation did not finish within `fuel` rounds.
The returned list records the 2-second sleeps performed. -/
def generate_text_fuel (responses : Nat → Response) :
    Nat → Nat → Option (Except String String × List Nat)
  | _round, 0 => none
  | round, fuel + 1 =>
    match responses round with
    | Response.timeout =>
      match generate_text_fuel responses (round + 1) fuel with
      | none => none
      | some (r, sleeps) => some (r, 2 :: sleeps)
    | Response.httpError msg => some (Except.error msg, [])
    | Response.okNoChoices =>
      some (Except.error "No se obtuvo texto de OpenRouter", [])
    | Response.okText text => some (Except.ok text, [])

/-- A provider that times out on every round trip. -/
def alwaysTimeout : Nat → Response := fun _ => Response.timeout

/-- A provider that times out on the first `k` round trips and then answers
with `text`. -/
def timeoutsThen (k : Nat) (text : String) : Nat → Response :=
  fun round => if round < k then Response.timeout else Response.okText text

end OpenRouterAPI

/-! ### Lemmas about the retry loop -/

/-- One unfolding step of the loop when iterations remain. -/
theorem executeAttempts_succ {σ α : Type} (f : Nat → σ → Except String α × σ)
    (d maxR : Nat) (mdl : String) (remaining attempt : Nat) (s : σ)
    (log : List ErrorEntry) (sleeps : List Nat) (lastErr : Option String) :
    executeAttempts f d maxR mdl (remaining + 1) attempt s log sleeps lastErr =
      (match f attempt s with
       | (Except.ok v, s1) => (Except.ok v, s1, log, sleeps)
       | (Except.error e, s1) =>
         executeAttempts f d maxR mdl remaining (attempt + 1) s1
           (log ++ [⟨attempt, e, mdl⟩])
           (if attempt < maxR then sleeps ++ [d * 2 ^ (attempt - 1)] else sleeps)
           (some e)) := rfl

/-- Mapping `g (a + ·)` over `range (k+1)` splits off `g a`. -/
theorem map_range_shift {β : Type} (g : Nat → β) (k a : Nat) :
    (List.range (k + 1)).map (fun j => g (a + j)) =
      g a :: (List.range k).map (fun j => g (a + 1 + j)) := by
  rw [List.range_succ_eq_map, List.map_cons, List.map_map]
  refine congrArg₂ _ (by simp) ?_
  refine List.map_congr_left (fun j _ => ?_)
  simp only [Function.comp_apply]
  exact congrArg g (by omega)

/-- If the attempts `attempt, …, attempt+k-1` fail with errors `err i` and
attempt `attempt+k` succeeds with `v`, the loop returns `v`, appends exactly
the `k` failure entries, and sleeps `delay * 2^(i-1)` after each of the `k`
failed attempts. -/
theorem executeAttempts_ok {α : Type} (f : Nat → Except String α)
    (err : Nat → String) (d maxR : Nat) (mdl : String) (v : α) :
    ∀ (k attempt remaining : Nat) (log : List ErrorEntry) (sleeps : List Nat)
      (lastErr : Option String),
      (∀ i, attempt ≤ i → i < attempt + k → f i = Except.error (err i)) →
      f (attempt + k) = Except.ok v →
      attempt + k ≤ maxR →
      k < remaining →
      executeAttempts (fun a _ => (f a, ())) d maxR mdl remaining attempt ()
          log sleeps lastErr =
        (Except.ok v, (),
         log ++ (List.range k).map
           (fun j => ⟨attempt + j, err (attempt + j), mdl⟩),
         sleeps ++ (List.range k).map (fun j => d * 2 ^ (attempt + j - 1))) := by
  intro k
  induction k with
  | zero =>
    intro attempt remaining log sleeps lastErr _hfail hok _hle hrem
    obtain ⟨r, rfl⟩ : ∃ r, remaining = r + 1 := ⟨remaining - 1, by omega⟩
    simp only [Nat.add_zero] at hok
    rw [executeAttempts_succ]
    simp [hok]
  | succ k ih =>
    intro attempt remaining log sleeps lastErr hfail hok hle hrem
    obtain ⟨r, rfl⟩ : ∃ r, remaining = r + 1 := ⟨remaining - 1, by omega⟩
    have hfa : f attempt = Except.error (err attempt) :=
      hfail attempt (Nat.le_refl _) (by omega)
    have hlt : attempt < maxR := by omega
    have step := ih (attempt + 1) r
      (log ++ [⟨attempt, err attempt, mdl⟩])
      (sleeps ++ [d * 2 ^ (attempt - 1)]) (some (err attempt))
      (fun i h1 h2 => hfail i (by omega) (by omega))
      (by have h : attempt + 1 + k = attempt + (k + 1) := by omega
          rw [h]; exact hok)
      (by omega) (by omega)
    rw [executeAttempts_succ]
    simp only [hfa, if_pos hlt]
    rw [step]
    simp only [Prod.mk.injEq, true_and]
    constructor
    · rw [map_range_shift (fun i => (⟨i, err i, mdl⟩ : ErrorEntry)) k attempt]
      simp [List.append_assoc]
    · rw [map_range_shift (fun i => d * 2 ^ (i - 1)) k attempt]
      simp [List.append_assoc]

/-- If every attempt from `attempt` to `maxR` fails with `err i` and the loop
has exactly those attempts left, it fails with the exhaustion error carrying
the error of the last attempt, appends all `remaining` failure entries, and
sleeps after every failed attempt except the last one. -/
theorem executeAttempts_exhausted {α : Type} (f : Nat → Except String α)
    (err : Nat → String) (d maxR : Nat) (mdl : String) :
    ∀ (r attempt : Nat) (log : List ErrorEntry) (sleeps : List Nat)
      (lastErr : Option String),
      attempt + (r + 1) = maxR + 1 →
      1 ≤ attempt →
      (∀ i, attempt ≤ i → i ≤ maxR → f i = Except.error (err i)) →
      executeAttempts (fun a _ => (f a, ())) d maxR mdl (r + 1) attempt ()
          log sleeps lastErr =
        (Except.error (RetryError.exhausted maxR (some (err maxR))), (),
         log ++ (List.range (r + 1)).map
           (fun j => ⟨attempt + j, err (attempt + j), mdl⟩),
         sleeps ++ (List.range r).map (fun j => d * 2 ^ (attempt + j - 1))) := by
  intro r
  induction r with
  | zero =>
    intro attempt log sleeps lastErr hinv _h1 hfail
    have hattempt : attempt = maxR := by omega
    have hfa : f attempt = Except.error (err attempt) :=
      hfail attempt (Nat.le_refl _) (by omega)
    rw [executeAttempts_succ]
    simp only [hfa]
    subst hattempt
    simp [executeAttempts, List.range_succ]
  | succ r ih =>
    intro attempt log sleeps lastErr hinv h1 hfail
    have hfa : f attempt = Except.error (err attempt) :=
      hfail attempt (Nat.le_refl _) (by omega)
    have hlt : attempt < maxR := by omega
    have step := ih (attempt + 1)
      (log ++ [⟨attempt, err attempt, mdl⟩])
      (sleeps ++ [d * 2 ^ (attempt - 1)]) (some (err attempt))
      (by omega) (by omega)
      (fun i hi1 hi2 => hfail i (by omega) hi2)
    rw [executeAttempts_succ]
    simp only [hfa, if_pos hlt]
    rw [step]
    simp only [Prod.mk.injEq, true_and]
    constructor
    · rw [map_range_shift (fun i => (⟨i, err i, mdl⟩ : ErrorEntry)) (r + 1) attempt]
      simp [List.append_assoc]
    · rw [map_range_shift (fun i => d * 2 ^ (i - 1)) r attempt]
      simp [List.append_assoc]

/-- C1: for every zero-argument operation, `maxAttempts ≥ 1` and `baseDelay`,
`execute_with_retry` makes attempts numbered `1..maxAttempts`.  If the
operation fails `k < maxAttempts` times (with errors `err 1, …, err k`) and
then succeeds with `v`, it returns `v` immediately with exactly the `k`
failure entries appended to the error log, having slept
`baseDelay * 2^(attempt-1)` after each failed attempt (none of which is the
last attempt).  If every attempt fails, it fails with the exhaustion error
carrying the last underlying error, after exactly `maxAttempts` attempts
(= `maxAttempts` log entries), sleeping after each failed attempt except the
last. -/
theorem retryExecutor_backoff_spec {α : Type} (maxR d : Nat)
    (log0 : List ErrorEntry) (f : Nat → Except String α) (err : Nat → String)
    (mdl : String) (hmax : 1 ≤ maxR) :
    (∀ k v, k + 1 ≤ maxR →
      (∀ i, 1 ≤ i → i ≤ k → f i = Except.error (err i)) →
      f (k + 1) = Except.ok v →
      (RetryHandler.mk maxR d log0).execute_pure f mdl =
        (Except.ok v,
         log0 ++ (List.range k).map (fun j => ⟨1 + j, err (1 + j), mdl⟩),
         (List.range k).map (fun j => d * 2 ^ j))) ∧
    ((∀ i, 1 ≤ i → i ≤ maxR → f i = Except.error (err i)) →
      (RetryHandler.mk maxR d log0).execute_pure f mdl =
        (Except.error (RetryError.exhausted maxR (some (err maxR))),
         log0 ++ (List.range maxR).map (fun j => ⟨1 + j, err (1 + j), mdl⟩),
         (List.range (maxR - 1)).map (fun j => d * 2 ^ j))) := by
  have hexp : ∀ k, (List.range k).map (fun j => d * 2 ^ (1 + j - 1)) =
      (List.range k).map (fun j => d * 2 ^ j) := by
    intro k
    refine List.map_congr_left (fun j _ => ?_)
    have h : 1 + j - 1 = j := by omega
    rw [h]
  constructor
  · intro k v hk hfail hok
    have H := executeAttempts_ok f err d maxR mdl v k 1 maxR log0 [] none
      (fun i h1 h2 => hfail i h1 (by omega))
      (by have h : 1 + k = k + 1 := by omega
          rw [h]; exact hok)
      (by omega) (by omega)
    simp only [RetryHandler.execute_pure, RetryHandler.execute_with_retry]
    rw [H]
    simp [hexp k]
  · intro hfail
    obtain ⟨r, hr⟩ : ∃ r, maxR = r + 1 := ⟨maxR - 1, by omega⟩
    have H := executeAttempts_exhausted f err d maxR mdl r 1 log0 [] none
      (by omega) (by omega) hfail
    simp only [RetryHandler.execute_pure, RetryHandler.execute_with_retry]
    rw [show maxR = r + 1 from hr] at H ⊢
    rw [H]
    simp only [Nat.add_sub_cancel]
    rw [hexp r]
    simp

/-- If the first `k` attempts fail and attempt `k+1 ≤ max_retries` succeeds
with `v`, `execute_pure` returns `v`. -/
theorem execute_pure_ok {α : Type} (h : RetryHandler)
    (f : Nat → Except String α) (err : Nat → String) (k : Nat) (v : α)
    (mdl : String) (hk : k + 1 ≤ h.max_retries)
    (hfail : ∀ i, 1 ≤ i → i ≤ k → f i = Except.error (err i))
    (hok : f (k + 1) = Except.ok v) :
    (h.execute_pure f mdl).1 = Except.ok v := by
  obtain ⟨maxR, d, log0⟩ := h
  have H := executeAttempts_ok f err d maxR mdl v k 1 maxR log0 [] none
    (fun i h1 h2 => hfail i h1 (by omega))
    (by have he : 1 + k = k + 1 := by omega
        rw [he]; exact hok)
    (by simp only at hk; omega) (by simp only at hk; omega)
  simp only [RetryHandler.execute_pure, RetryHandler.execute_with_retry]
  simp only at H
  rw [H]

/-- If every attempt up to `max_retries ≥ 1` fails, `execute_pure` raises the
exhaustion error carrying the last error. -/
theorem execute_pure_fail_all {α : Type} (h : RetryHandler)
    (f : Nat → Except String α) (err : Nat → String) (mdl : String)
    (hmax : 1 ≤ h.max_retries)
    (hfail : ∀ i, 1 ≤ i → i ≤ h.max_retries → f i = Except.error (err i)) :
    (h.execute_pure f mdl).1 =
      Except.error
        (RetryError.exhausted h.max_retries (some (err h.max_retries))) := by
  obtain ⟨maxR, d, log0⟩ := h
  simp only at hmax hfail ⊢
  obtain ⟨r, hr⟩ : ∃ r, maxR = r + 1 := ⟨maxR - 1, by omega⟩
  subst hr
  have H := executeAttempts_exhausted f err d (r + 1) mdl r 1 log0 [] none
    (by omega) (by omega) hfail
  simp only [RetryHandler.execute_pure, RetryHandler.execute_with_retry]
  rw [H]

/-! ### Case analysis of `ModelA.build_prompt` -/

/-- When the Gemini retry loop succeeds with `prompt_es`, `build_prompt`
returns it together with the (total) video prompt and success provenance. -/
theorem buildPrompt_of_retry_ok (st : ModelA.State) (env : Env)
    (idea style : String) (personajes : Option (List String))
    (image_analysis : Option String) (p : String)
    (hp : (st.retry_handler.execute_pure
        (fun attempt => env.gemini attempt
          (ModelA.user_message_of idea style personajes image_analysis))
        "unknown").1 = Except.ok p) :
    (ModelA.build_prompt st env idea style personajes image_analysis).1 =
      Except.ok
        ⟨p, ModelA.generate_video_prompt env p, st.current_model,
         st.current_model, "success", none⟩ := by
  simp only [ModelA.build_prompt]
  rw [hp]

/-- When the Gemini retry loop is exhausted and the OpenRouter fallback
succeeds with `prompt_es`, `build_prompt` returns it with failed-primary
provenance. -/
theorem buildPrompt_of_retry_err_fallback_ok (st : ModelA.State) (env : Env)
    (idea style : String) (personajes : Option (List String))
    (image_analysis : Option String) (re : RetryError) (p : String)
    (he : (st.retry_handler.execute_pure
        (fun attempt => env.gemini attempt
          (ModelA.user_message_of idea style personajes image_analysis))
        "unknown").1 = Except.error re)
    (hor : env.openrouter 1
        (ModelA.fallback_call
          (ModelA.user_message_of idea style personajes image_analysis)) =
      Except.ok p) :
    (ModelA.build_prompt st env idea style personajes image_analysis).1 =
      Except.ok
        ⟨p, ModelA.generate_video_prompt env p,
         "openrouter/" ++ ModelConfig.MODELO_B_VISION, st.current_model,
         "failed", some ModelConfig.MODELO_B_VISION⟩ := by
  simp only [ModelA.build_prompt]
  rw [he]
  simp only [ModelA.fallback_call] at hor
  rw [hor]

/-- When the Gemini retry loop is exhausted and the OpenRouter fallback also
fails, `build_prompt` re-raises the fallback error. -/
theorem buildPrompt_of_both_err (st : ModelA.State) (env : Env)
    (idea style : String) (personajes : Option (List String))
    (image_analysis : Option String) (re : RetryError) (efb : String)
    (he : (st.retry_handler.execute_pure
        (fun attempt => env.gemini attempt
          (ModelA.user_message_of idea style personajes image_analysis))
        "unknown").1 = Except.error re)
    (hor : env.openrouter 1
        (ModelA.fallback_call
          (ModelA.user_message_of idea style personajes image_analysis)) =
      Except.error efb) :
    (ModelA.build_prompt st env idea style personajes image_analysis).1 =
      Except.error (ModelA.BuildError.promptGenerationFailed efb) := by
  simp only [ModelA.build_prompt]
  rw [he]
  simp only [ModelA.fallback_call] at hor
  rw [hor]

/-- When both the Gemini video call and the OpenRouter video fallback fail,
`_generate_video_prompt` returns the static sentence. -/
theorem generate_video_prompt_of_both_err (env : Env) (p e1 e2 : String)
    (h1 : env.gemini 1 (ModelA.video_prompt_text p) = Except.error e1)
    (h2 : env.openrouter 1 (ModelA.video_call p) = Except.error e2) :
    ModelA.generate_video_prompt env p = ModelA.VIDEO_FALLBACK := by
  simp only [ModelA.generate_video_prompt]
  rw [h1]
  simp only [ModelA.video_call] at h2
  rw [h2]

/-- When the Gemini video call fails and the OpenRouter video fallback
succeeds, `_generate_video_prompt` returns the text of the fallback. -/
theorem generate_video_prompt_of_fallback_ok (env : Env) (p e1 v : String)
    (h1 : env.gemini 1 (ModelA.video_prompt_text p) = Except.error e1)
    (h2 : env.openrouter 1 (ModelA.video_call p) = Except.ok v) :
    ModelA.generate_video_prompt env p = v := by
  simp only [ModelA.generate_video_prompt]
  rw [h1]
  simp only [ModelA.video_call] at h2
  rw [h2]

/-- When the Gemini video call succeeds, `_generate_video_prompt` returns
its text. -/
theorem generate_video_prompt_of_gemini_ok (env : Env) (p v : String)
    (h1 : env.gemini 1 (ModelA.video_prompt_text p) = Except.ok v) :
    ModelA.generate_video_prompt env p = v := by
  simp only [ModelA.generate_video_prompt]
  rw [h1]

/-- Witness for C1: with `maxAttempts = 3`, `baseDelay = 2`, an operation
failing once and then succeeding returns the success, one log entry and one
sleep of 2 seconds. -/
theorem retryExecutor_backoff_spec_witness :
    (RetryHandler.mk 3 2 []).execute_pure
        (fun i => if i ≤ 1 then Except.error ("e" ++ toString i)
                  else Except.ok "ok") "unknown" =
      (Except.ok "ok", [⟨1, "e1", "unknown"⟩], [2]) := by
  have H := (retryExecutor_backoff_spec 3 2 []
      (fun i => if i ≤ 1 then Except.error ("e" ++ toString i)
                else Except.ok "ok")
      (fun i => "e" ++ toString i) "unknown" (by decide)).1 1 "ok"
      (by decide)
      (fun i h1 h2 => by
        have hi : i = 1 := by omega
        subst hi; rfl)
      (by rfl)
  rw [H]
  rfl

/-- C2: if the primary Gemini provider fails on every retry attempt and the
secondary OpenRouter chat provider then succeeds with `p`, `build_prompt`
returns a result with `primary_status = "failed"`, `fallback_model` set to
the secondary model id, and `model_used = "openrouter/<secondary-model>"`;
and in every result whatsoever, `primary_status = "failed"` implies
`fallback_model` is populated with the secondary model id and `model_used`
references it. -/
theorem buildPrompt_fallback_success_spec :
    (∀ (st : ModelA.State) (env : Env) (idea style : String)
       (personajes : Option (List String)) (image_analysis : Option String)
       (err : Nat → String) (p : String),
      1 ≤ st.retry_handler.max_retries →
      (∀ i, 1 ≤ i → i ≤ st.retry_handler.max_retries →
        env.gemini i
            (ModelA.user_message_of idea style personajes image_analysis) =
          Except.error (err i)) →
      env.openrouter 1
          (ModelA.fallback_call
            (ModelA.user_message_of idea style personajes image_analysis)) =
        Except.ok p →
      (ModelA.build_prompt st env idea style personajes image_analysis).1 =
        Except.ok
          ⟨p, ModelA.generate_video_prompt env p,
           "openrouter/" ++ ModelConfig.MODELO_B_VISION, st.current_model,
           "failed", some ModelConfig.MODELO_B_VISION⟩) ∧
    (∀ (st : ModelA.State) (env : Env) (idea style : String)
       (personajes : Option (List String)) (image_analysis : Option String)
       (r : ModelA.BuildResult),
      (ModelA.build_prompt st env idea style personajes image_analysis).1 =
        Except.ok r →
      r.primary_status = "failed" →
      r.fallback_model = some ModelConfig.MODELO_B_VISION ∧
      r.model_used = "openrouter/" ++ ModelConfig.MODELO_B_VISION) := by
  constructor
  · intro st env idea style personajes image_analysis err p hmax hgem hor
    have he := execute_pure_fail_all st.retry_handler
      (fun attempt => env.gemini attempt
        (ModelA.user_message_of idea style personajes image_analysis))
      err "unknown" hmax hgem
    exact buildPrompt_of_retry_err_fallback_ok st env idea style personajes
      image_analysis _ p he hor
  · intro st env idea style personajes image_analysis r hr hfailed
    cases hre : (st.retry_handler.execute_pure
        (fun attempt => env.gemini attempt
          (ModelA.user_message_of idea style personajes image_analysis))
        "unknown").1 with
    | ok p =>
      have hb := buildPrompt_of_retry_ok st env idea style personajes
        image_analysis p hre
      rw [hr] at hb
      have hreq := (Except.ok.injEq _ _).mp hb
      rw [hreq] at hfailed
      simp at hfailed
    | error re =>
      cases hor : env.openrouter 1
          (ModelA.fallback_call
            (ModelA.user_message_of idea style personajes image_analysis)) with
      | ok p =>
        have hb := buildPrompt_of_retry_err_fallback_ok st env idea style
          personajes image_analysis re p hre hor
        rw [hr] at hb
        have hreq := (Except.ok.injEq _ _).mp hb
        rw [hreq]
        exact ⟨rfl, rfl⟩
      | error efb =>
        have hb := buildPrompt_of_both_err st env idea style personajes
          image_analysis re efb hre hor
        rw [hr] at hb
        exact absurd hb (by simp)

/-- Witness for C2: Gemini always fails, OpenRouter answers `"fb"` for the
prompt build (system rules attached) and `"vid"` for the video derivation
(no system rules). -/
theorem buildPrompt_fallback_success_spec_witness :
    (ModelA.build_prompt ModelA.State.new
        ⟨fun _ _ => Except.error "gemini down",
         fun _ c => if c.system_prompt = none then Except.ok "vid"
                    else Except.ok "fb"⟩
        "una idea" "fotografia" none none).1 =
      Except.ok
        ⟨"fb", "vid", "openrouter/qwen/qwen-2-vl-72b-instruct",
         "gemini-2.5-pro", "failed", some "qwen/qwen-2-vl-72b-instruct"⟩ := by
  have H := buildPrompt_fallback_success_spec.1 ModelA.State.new
    ⟨fun _ _ => Except.error "gemini down",
     fun _ c => if c.system_prompt = none then Except.ok "vid"
                else Except.ok "fb"⟩
    "una idea" "fotografia" none none (fun _ => "gemini down") "fb"
    (by decide) (fun i h1 h2 => rfl) rfl
  rw [H]
  rfl

/-- C3: when the primary Gemini provider exhausts its retries and the
OpenRouter fallback call also fails, `build_prompt` fails with
`PromptGenerationFailed` propagating the fallback error, and the whole
orchestrator request fails with the same error — no photographic prompt is
returned from this path (the result is an `Except.error`, not a
`BuildResult`). -/
theorem buildPrompt_double_failure_fatal :
    (∀ (st : ModelA.State) (env : Env) (idea style : String)
       (personajes : Option (List String)) (image_analysis : Option String)
       (err : Nat → String) (efb : String),
      1 ≤ st.retry_handler.max_retries →
      (∀ i, 1 ≤ i → i ≤ st.retry_handler.max_retries →
        env.gemini i
            (ModelA.user_message_of idea style personajes image_analysis) =
          Except.error (err i)) →
      env.openrouter 1
          (ModelA.fallback_call
            (ModelA.user_message_of idea style personajes image_analysis)) =
        Except.error efb →
      (ModelA.build_prompt st env idea style personajes image_analysis).1 =
        Except.error (ModelA.BuildError.promptGenerationFailed efb)) ∧
    (∀ (st : Orchestrator.State) (env : Env) (idea style : String)
       (personajes : Option (List String)) (err : Nat → String)
       (efb : String),
      1 ≤ st.model_a.retry_handler.max_retries →
      (∀ i, 1 ≤ i → i ≤ st.model_a.retry_handler.max_retries →
        env.gemini i (ModelA.user_message_of idea style personajes none) =
          Except.error (err i)) →
      env.openrouter 1
          (ModelA.fallback_call
            (ModelA.user_message_of idea style personajes none)) =
        Except.error efb →
      (Orchestrator.process_request st env idea style personajes none).1 =
        Except.error (ModelA.BuildError.promptGenerationFailed efb)) := by
  have main : ∀ (st : ModelA.State) (env : Env) (idea style : String)
      (personajes : Option (List String)) (image_analysis : Option String)
      (err : Nat → String) (efb : String),
      1 ≤ st.retry_handler.max_retries →
      (∀ i, 1 ≤ i → i ≤ st.retry_handler.max_retries →
        env.gemini i
            (ModelA.user_message_of idea style personajes image_analysis) =
          Except.error (err i)) →
      env.openrouter 1
          (ModelA.fallback_call
            (ModelA.user_message_of idea style personajes image_analysis)) =
        Except.error efb →
      (ModelA.build_prompt st env idea style personajes image_analysis).1 =
        Except.error (ModelA.BuildError.promptGenerationFailed efb) := by
    intro st env idea style personajes image_analysis err efb hmax hgem hor
    have he := execute_pure_fail_all st.retry_handler
      (fun attempt => env.gemini attempt
        (ModelA.user_message_of idea style personajes image_analysis))
      err "unknown" hmax hgem
    exact buildPrompt_of_both_err st env idea style personajes
      image_analysis _ efb he hor
  refine ⟨main, ?_⟩
  intro st env idea style personajes err efb hmax hgem hor
  have hb := main st.model_a env idea style personajes none err efb
    hmax hgem hor
  simp only [Orchestrator.process_request]
  exact hb

/-- Witness for C3: Gemini always fails and OpenRouter always fails; the
orchestrator request fails with `PromptGenerationFailed` carrying the
OpenRouter error. -/
theorem buildPrompt_double_failure_fatal_witness :
    (Orchestrator.process_request Orchestrator.State.new
        ⟨fun _ _ => Except.error "gemini down",
         fun _ _ => Except.error "openrouter down"⟩
        "una idea" "fotografia" none none).1 =
      Except.error
        (ModelA.BuildError.promptGenerationFailed "openrouter down") :=
  buildPrompt_double_failure_fatal.2 Orchestrator.State.new
    ⟨fun _ _ => Except.error "gemini down",
     fun _ _ => Except.error "openrouter down"⟩
    "una idea" "fotografia" none (fun _ => "gemini down") "openrouter down"
    (by decide) (fun i h1 h2 => rfl) rfl

/-- C4: the video-prompt derivation is total — when both the Gemini video
call and the OpenRouter video fallback fail it returns the literal static
fallback sentence instead of raising; and for either path of `build_prompt`
that obtained a photographic prompt `p`, the result is a success carrying
`p` verbatim together with the derived video prompt, so the video stage is
never fatal and never discards the photographic prompt. -/
theorem videoPrompt_degrades_never_fatal :
    (∀ (env : Env) (p e1 e2 : String),
      env.gemini 1 (ModelA.video_prompt_text p) = Except.error e1 →
      env.openrouter 1 (ModelA.video_call p) = Except.error e2 →
      ModelA.generate_video_prompt env p = ModelA.VIDEO_FALLBACK) ∧
    (∀ (st : ModelA.State) (env : Env) (idea style : String)
       (personajes : Option (List String)) (image_analysis : Option String)
       (p : String),
      (st.retry_handler.execute_pure
          (fun attempt => env.gemini attempt
            (ModelA.user_message_of idea style personajes image_analysis))
          "unknown").1 = Except.ok p →
      (ModelA.build_prompt st env idea style personajes image_analysis).1 =
        Except.ok
          ⟨p, ModelA.generate_video_prompt env p, st.current_model,
           st.current_model, "success", none⟩) ∧
    (∀ (st : ModelA.State) (env : Env) (idea style : String)
       (personajes : Option (List String)) (image_analysis : Option String)
       (re : RetryError) (p : String),
      (st.retry_handler.execute_pure
          (fun attempt => env.gemini attempt
            (ModelA.user_message_of idea style personajes image_analysis))
          "unknown").1 = Except.error re →
      env.openrouter 1
          (ModelA.fallback_call
            (ModelA.user_message_of idea style personajes image_analysis)) =
        Except.ok p →
      (ModelA.build_prompt st env idea style personajes image_analysis).1 =
        Except.ok
          ⟨p, ModelA.generate_video_prompt env p,
           "openrouter/" ++ ModelConfig.MODELO_B_VISION, st.current_model,
           "failed", some ModelConfig.MODELO_B_VISION⟩) :=
  ⟨generate_video_prompt_of_both_err,
   buildPrompt_of_retry_ok,
   buildPrompt_of_retry_err_fallback_ok⟩

/-- Witness for C4: with both video providers failing, the derivation
returns the literal static sentence. -/
theorem videoPrompt_degrades_never_fatal_witness :
    ModelA.generate_video_prompt
        ⟨fun _ _ => Except.error "gemini down",
         fun _ _ => Except.error "openrouter down"⟩ "un prompt" =
      ModelA.VIDEO_FALLBACK :=
  videoPrompt_degrades_never_fatal.1
    ⟨fun _ _ => Except.error "gemini down",
     fun _ _ => Except.error "openrouter down"⟩
    "un prompt" "gemini down" "openrouter down" rfl rfl

/-! ### Case analysis of `ModelB` -/

/-- If the primary (current-model) call succeeds, `_analyze_with_api`
returns its text without touching the backup model. -/
theorem analyze_with_api_primary_ok (env : Env) (attempt : Nat)
    (s : String × List ORCall) (prompt r : String)
    (h : env.openrouter attempt (ModelB.vision_call prompt s.1) =
      Except.ok r) :
    ModelB.analyze_with_api env attempt s prompt =
      (Except.ok r, s.1, s.2 ++ [ModelB.vision_call prompt s.1]) := by
  simp only [ModelB.analyze_with_api, ModelB.vision_call] at h ⊢
  rw [h]

/-- If the primary call fails and the backup call succeeds,
`_analyze_with_api` returns the text of the backup and reassigns
`current_model` to the backup model. -/
theorem analyze_with_api_backup_ok (env : Env) (attempt : Nat)
    (s : String × List ORCall) (prompt e r : String)
    (h1 : env.openrouter attempt (ModelB.vision_call prompt s.1) =
      Except.error e)
    (h2 : env.openrouter attempt
        (ModelB.vision_call prompt ModelB.BACKUP_MODEL) = Except.ok r) :
    ModelB.analyze_with_api env attempt s prompt =
      (Except.ok r, ModelB.BACKUP_MODEL,
       s.2 ++ [ModelB.vision_call prompt s.1,
               ModelB.vision_call prompt ModelB.BACKUP_MODEL]) := by
  simp only [ModelB.analyze_with_api, ModelB.vision_call] at h1 h2 ⊢
  rw [h1, h2]

/-- If the very first call (attempt 1, against the current model of the
instance) succeeds, `analyze_image` returns it at once: one provider
call, no sleeps, state unchanged. -/
theorem analyze_image_first_ok (st : ModelB.State) (env : Env) (r : String)
    (hmax : 1 ≤ st.retry_handler.max_retries)
    (h : env.openrouter 1
        (ModelB.vision_call ModelB.ANALYSIS_PROMPT st.current_model) =
      Except.ok r) :
    ModelB.analyze_image st env =
      (Except.ok r, st,
       [ModelB.vision_call ModelB.ANALYSIS_PROMPT st.current_model], []) := by
  obtain ⟨⟨maxR, d, log0⟩, cm⟩ := st
  simp only at hmax h
  obtain ⟨r0, hr0⟩ : ∃ r0, maxR = r0 + 1 := ⟨maxR - 1, by omega⟩
  subst hr0
  have hstep := analyze_with_api_primary_ok env 1 (cm, ([] : List ORCall))
    ModelB.ANALYSIS_PROMPT r h
  simp only [ModelB.analyze_image, RetryHandler.execute_with_retry]
  rw [executeAttempts_succ]
  simp only at hstep
  rw [hstep]
  simp

/-- Counterexample to C5 as stated: with both vision providers always
failing, a single `analyze_image` call issues six OpenRouter calls —
`[primary, backup, primary, backup, primary, backup]` — so the backup
vision model is tried three times (once inside every one of the
`MAX_RETRIES = 3` attempts), not exactly once, and its first try happens
during attempt 1, before the retries against the primary model are
exhausted. -/
theorem visionBackup_not_once_counterexample :
    ((ModelB.analyze_image ModelB.State.new
        ⟨fun _ _ => Except.error "g",
         fun _ _ => Except.error "vision down"⟩).2.2.1.map
      (fun c => c.model)) =
      [ModelConfig.MODELO_B_VISION, ModelB.BACKUP_MODEL,
       ModelConfig.MODELO_B_VISION, ModelB.BACKUP_MODEL,
       ModelConfig.MODELO_B_VISION, ModelB.BACKUP_MODEL] ∧
    ¬ (((ModelB.analyze_image ModelB.State.new
        ⟨fun _ _ => Except.error "g",
         fun _ _ => Except.error "vision down"⟩).2.2.1.countP
      (fun c => c.model == ModelB.BACKUP_MODEL)) = 1) := by
  constructor
  · decide
  · decide

/-- C5 (amended): within each attempt of the retry loop, `_analyze_with_api`
tries the backup vision model exactly once, immediately after the primary
(current-model) try of that attempt fails — not only after all retries are exhausted
— and not at all when the primary try succeeds; a successful backup call
reassigns `current_model` to the backup model (sticky fallback), and a
subsequent `analyze_image` call on the same instance issues its first
provider call against the `current_model` of the instance. -/
theorem visionBackup_per_attempt_sticky :
    (∀ (env : Env) (attempt : Nat) (s : String × List ORCall)
       (prompt e r : String),
      env.openrouter attempt (ModelB.vision_call prompt s.1) =
        Except.error e →
      env.openrouter attempt
          (ModelB.vision_call prompt ModelB.BACKUP_MODEL) = Except.ok r →
      ModelB.analyze_with_api env attempt s prompt =
        (Except.ok r, ModelB.BACKUP_MODEL,
         s.2 ++ [ModelB.vision_call prompt s.1,
                 ModelB.vision_call prompt ModelB.BACKUP_MODEL])) ∧
    (∀ (env : Env) (attempt : Nat) (s : String × List ORCall)
       (prompt r : String),
      env.openrouter attempt (ModelB.vision_call prompt s.1) = Except.ok r →
      ModelB.analyze_with_api env attempt s prompt =
        (Except.ok r, s.1, s.2 ++ [ModelB.vision_call prompt s.1])) ∧
    (∀ (st : ModelB.State) (env : Env) (r : String),
      1 ≤ st.retry_handler.max_retries →
      env.openrouter 1
          (ModelB.vision_call ModelB.ANALYSIS_PROMPT st.current_model) =
        Except.ok r →
      ModelB.analyze_image st env =
        (Except.ok r, st,
         [ModelB.vision_call ModelB.ANALYSIS_PROMPT st.current_model], [])) :=
  ⟨analyze_with_api_backup_ok, analyze_with_api_primary_ok,
   analyze_image_first_ok⟩

/-- Witness for C5 (amended): during attempt 1 the primary model fails and
the backup answers; `current_model` becomes the backup model, and an
analyzer whose `current_model` is already the backup issues its first call
against the backup model. -/
theorem visionBackup_per_attempt_sticky_witness :
    ModelB.analyze_with_api
        ⟨fun _ _ => Except.error "g",
         fun _ c => if c.model == ModelB.BACKUP_MODEL then Except.ok "desc"
                    else Except.error "primary down"⟩
        1 (ModelConfig.MODELO_B_VISION, []) ModelB.ANALYSIS_PROMPT =
      (Except.ok "desc", ModelB.BACKUP_MODEL,
       [ModelB.vision_call ModelB.ANALYSIS_PROMPT ModelConfig.MODELO_B_VISION,
        ModelB.vision_call ModelB.ANALYSIS_PROMPT ModelB.BACKUP_MODEL]) ∧
    ModelB.analyze_image
        ⟨RetryHandler.new, ModelB.BACKUP_MODEL⟩
        ⟨fun _ _ => Except.error "g",
         fun _ c => if c.model == ModelB.BACKUP_MODEL then Except.ok "desc"
                    else Except.error "primary down"⟩ =
      (Except.ok "desc", ⟨RetryHandler.new, ModelB.BACKUP_MODEL⟩,
       [ModelB.vision_call ModelB.ANALYSIS_PROMPT ModelB.BACKUP_MODEL],
       []) := by
  constructor
  · have H := visionBackup_per_attempt_sticky.1
      ⟨fun _ _ => Except.error "g",
       fun _ c => if c.model == ModelB.BACKUP_MODEL then Except.ok "desc"
                  else Except.error "primary down"⟩
      1 (ModelConfig.MODELO_B_VISION, []) ModelB.ANALYSIS_PROMPT
      "primary down" "desc" rfl rfl
    rw [H]
    rfl
  · have H := visionBackup_per_attempt_sticky.2.2
      ⟨RetryHandler.new, ModelB.BACKUP_MODEL⟩
      ⟨fun _ _ => Except.error "g",
       fun _ c => if c.model == ModelB.BACKUP_MODEL then Except.ok "desc"
                  else Except.error "primary down"⟩
      "desc" (by decide) rfl
    rw [H]

/-- C6: if the image-analysis stage fails, the orchestrator treats
`image_analysis` as absent and proceeds to the prompt-building stage:
the outcome of the request is exactly the outcome of the same request without
an image. -/
theorem imageAnalysis_failure_nonfatal :
    ∀ (st : Orchestrator.State) (env : Env) (idea style : String)
      (personajes : Option (List String)) (img : List Nat) (re : RetryError),
      (ModelB.analyze_image st.model_b env).1 = Except.error re →
      (Orchestrator.process_request st env idea style personajes
          (some img)).1 =
        (Orchestrator.process_request st env idea style personajes none).1 := by
  intro st env idea style personajes img re h
  simp only [Orchestrator.process_request]
  cases himg : img.isEmpty with
  | true => simp [himg]
  | false =>
    simp only [himg, Bool.false_eq_true, if_false]
    rw [h]

/-- Witness for C6: Gemini answers but OpenRouter (vision) is down, so image
analysis exhausts its retries; the request with an image yields the same
result as the request without one. -/
theorem imageAnalysis_failure_nonfatal_witness :
    (Orchestrator.process_request Orchestrator.State.new
        ⟨fun _ _ => Except.ok "texto",
         fun _ _ => Except.error "vision down"⟩
        "una idea" "fotografia" none (some [1, 2, 3])).1 =
      (Orchestrator.process_request Orchestrator.State.new
        ⟨fun _ _ => Except.ok "texto",
         fun _ _ => Except.error "vision down"⟩
        "una idea" "fotografia" none none).1 :=
  imageAnalysis_failure_nonfatal Orchestrator.State.new
    ⟨fun _ _ => Except.ok "texto", fun _ _ => Except.error "vision down"⟩
    "una idea" "fotografia" none [1, 2, 3]
    (RetryError.exhausted 3 (some "vision down")) rfl

set_option maxRecDepth 20000 in
/-- Counterexample to C7 as stated: for the request `["cony", "andy"]` the
code does not join the profile texts in request order — it emits the Andy
profile first and the Cony profile second regardless of the requested
order, so it differs from the spec-stated request-order join. -/
theorem charactersContext_order_counterexample :
    ModelA.build_characters_context ["cony", "andy"] =
      "Andy: " ++ ModelConfig.PERFIL_ANDY ++ "\n"
        ++ "Cony: " ++ ModelConfig.PERFIL_CONY ∧
    ModelA.spec_characters_context ["cony", "andy"] =
      "Cony: " ++ ModelConfig.PERFIL_CONY ++ "\n"
        ++ "Andy: " ++ ModelConfig.PERFIL_ANDY ∧
    ¬ (ModelA.build_characters_context ["cony", "andy"] =
        ModelA.spec_characters_context ["cony", "andy"]) := by
  refine ⟨by decide, by decide, by decide⟩

set_option maxRecDepth 20000 in
/-- C7 (amended): requesting `["andy"]` produces exactly the Andy-profile
context (so it contains the Andy text and not the Cony text); `[]` and
`["ninguno"]` produce the literal no-specific-characters context
(`"Sin personajes específicos"` in the source); and for every character
list, the context depends only on whether `"andy"` and `"cony"` occur in
it: known profiles are joined with a newline in the fixed order Andy before
Cony (each at most once), and unknown keys are silently omitted. -/
theorem charactersContext_fixed_order_spec :
    (ModelA.build_characters_context ["andy"] =
      "Andy: " ++ ModelConfig.PERFIL_ANDY) ∧
    (ModelA.build_characters_context [] = "Sin personajes específicos") ∧
    (ModelA.build_characters_context ["ninguno"] =
      "Sin personajes específicos") ∧
    (∀ l : List String,
      ModelA.build_characters_context l =
        if l.contains "andy" then
          (if l.contains "cony" then
            "Andy: " ++ ModelConfig.PERFIL_ANDY ++ "\n"
              ++ "Cony: " ++ ModelConfig.PERFIL_CONY
          else "Andy: " ++ ModelConfig.PERFIL_ANDY)
        else
          (if l.contains "cony" then "Cony: " ++ ModelConfig.PERFIL_CONY
          else "Sin personajes específicos")) := by
  refine ⟨by decide, by decide, by decide, ?_⟩
  intro l
  cases ha : l.contains "andy" <;> cases hc : l.contains "cony" <;>
    simp only [ModelA.build_characters_context, ha, hc] <;> decide

/-- If the pure retry loop returns a success value, the operation of some
attempt produced exactly that value. -/
theorem executeAttempts_ok_source {α : Type} (f : Nat → Except String α)
    (d maxR : Nat) (mdl : String) :
    ∀ (remaining attempt : Nat) (log : List ErrorEntry) (sleeps : List Nat)
      (lastErr : Option String) (v : α),
      (executeAttempts (fun a _ => (f a, ())) d maxR mdl remaining attempt ()
        log sleeps lastErr).1 = Except.ok v →
      ∃ a, f a = Except.ok v := by
  intro remaining
  induction remaining with
  | zero =>
    intro attempt log sleeps lastErr v h
    simp [executeAttempts] at h
  | succ r ih =>
    intro attempt log sleeps lastErr v h
    rw [executeAttempts_succ] at h
    cases hf : f attempt with
    | ok w =>
      simp only [hf, Except.ok.injEq] at h
      exact ⟨attempt, by rw [hf, h]⟩
    | error e =>
      simp only [hf] at h
      exact ih (attempt + 1) _ _ _ v h

/-- Version of `executeAttempts_ok_source` at the `execute_pure` level. -/
theorem execute_pure_ok_source {α : Type} (h : RetryHandler)
    (f : Nat → Except String α) (mdl : String) (v : α)
    (hok : (h.execute_pure f mdl).1 = Except.ok v) :
    ∃ a, f a = Except.ok v := by
  simp only [RetryHandler.execute_pure, RetryHandler.execute_with_retry] at hok
  exact executeAttempts_ok_source f h.delay h.max_retries mdl h.max_retries 1
    h.error_log [] none v hok

set_option maxRecDepth 20000 in
/-- If every text a provider successfully returns is non-empty, the derived
video prompt is non-empty (in the worst case it is the non-empty static
fallback sentence). -/
theorem generate_video_prompt_ne_empty (env : Env)
    (hg : ∀ i s t, env.gemini i s = Except.ok t → t ≠ "")
    (ho : ∀ i c t, env.openrouter i c = Except.ok t → t ≠ "") (p : String) :
    ModelA.generate_video_prompt env p ≠ "" := by
  rcases h1 : env.gemini 1 (ModelA.video_prompt_text p) with e1 | t1
  · rcases h2 : env.openrouter 1 (ModelA.video_call p) with e2 | t2
    · rw [generate_video_prompt_of_both_err env p e1 e2 h1 h2]
      decide
    · rw [generate_video_prompt_of_fallback_ok env p e1 t2 h1 h2]
      exact ho 1 _ t2 h2
  · rw [generate_video_prompt_of_gemini_ok env p t1 h1]
    exact hg 1 _ t1 h1

/-- Counterexample to C8 as stated: `GeminiAPI.generate_text` successfully
returns the empty string when the 200 response of the provider carries a part
without a `text` key (`parts[0].get("text", "")`), and in that situation a
successful `build_prompt` run returns a result whose `prompt_es` and
`prompt_video` are both empty, for a non-empty idea. -/
theorem result_empty_prompt_counterexample :
    GeminiAPI.extract_text ⟨some [⟨some ⟨some [⟨none⟩]⟩⟩]⟩ =
      Except.ok "" ∧
    (ModelA.build_prompt ModelA.State.new
        ⟨fun _ _ => Except.ok "", fun _ _ => Except.error "unused"⟩
        "una idea" "fotografia" none none).1 =
      Except.ok ⟨"", "", "gemini-2.5-pro", "gemini-2.5-pro", "success",
        none⟩ :=
  ⟨rfl, rfl⟩

/-- C8 (amended): `prompt_es` and `prompt_video` of a successful
`build_prompt` result are exactly the texts the serving providers returned
(or the static video fallback), so they are non-empty whenever every text a
provider successfully returns is non-empty; the code itself never checks
for emptiness, and a provider that successfully returns `""` (which
`GeminiAPI.generate_text` can) yields an empty mandatory field. -/
theorem result_nonempty_when_providers_nonempty :
    ∀ (st : ModelA.State) (env : Env) (idea style : String)
      (personajes : Option (List String)) (image_analysis : Option String)
      (r : ModelA.BuildResult),
      (∀ i s t, env.gemini i s = Except.ok t → t ≠ "") →
      (∀ i c t, env.openrouter i c = Except.ok t → t ≠ "") →
      (ModelA.build_prompt st env idea style personajes image_analysis).1 =
        Except.ok r →
      r.prompt_es ≠ "" ∧ r.prompt_video ≠ "" := by
  intro st env idea style personajes image_analysis r hg ho hr
  cases hre : (st.retry_handler.execute_pure
      (fun attempt => env.gemini attempt
        (ModelA.user_message_of idea style personajes image_analysis))
      "unknown").1 with
  | ok p =>
    have hb := buildPrompt_of_retry_ok st env idea style personajes
      image_analysis p hre
    rw [hr] at hb
    have hreq := (Except.ok.injEq _ _).mp hb
    obtain ⟨a, ha⟩ := execute_pure_ok_source st.retry_handler _ "unknown" p hre
    rw [hreq]
    exact ⟨hg a _ p ha, generate_video_prompt_ne_empty env hg ho p⟩
  | error re =>
    cases hor : env.openrouter 1
        (ModelA.fallback_call
          (ModelA.user_message_of idea style personajes image_analysis)) with
    | ok p =>
      have hb := buildPrompt_of_retry_err_fallback_ok st env idea style
        personajes image_analysis re p hre hor
      rw [hr] at hb
      have hreq := (Except.ok.injEq _ _).mp hb
      rw [hreq]
      exact ⟨ho 1 _ p hor, generate_video_prompt_ne_empty env hg ho p⟩
    | error efb =>
      have hb := buildPrompt_of_both_err st env idea style personajes
        image_analysis re efb hre hor
      rw [hr] at hb
      exact absurd hb (by simp)

/-- Witness for C8 (amended): providers that always answer `"foto"` give a
successful result with non-empty mandatory fields. -/
theorem result_nonempty_when_providers_nonempty_witness :
    (⟨"foto", "foto", "gemini-2.5-pro", "gemini-2.5-pro", "success", none⟩ :
        ModelA.BuildResult).prompt_es ≠ "" ∧
    (⟨"foto", "foto", "gemini-2.5-pro", "gemini-2.5-pro", "success", none⟩ :
        ModelA.BuildResult).prompt_video ≠ "" :=
  result_nonempty_when_providers_nonempty ModelA.State.new
    ⟨fun _ _ => Except.ok "foto", fun _ _ => Except.ok "foto"⟩
    "una idea" "fotografia" none none
    ⟨"foto", "foto", "gemini-2.5-pro", "gemini-2.5-pro", "success", none⟩
    (fun i s t h => by
      have ht : t = "foto" := ((Except.ok.injEq _ _).mp h).symm
      rw [ht]; decide)
    (fun i c t h => by
      have ht : t = "foto" := ((Except.ok.injEq _ _).mp h).symm
      rw [ht]; decide)
    rfl

/-- One unfolding step of `generate_text_fuel` when fuel remains. -/
theorem generate_text_fuel_succ (resp : Nat → OpenRouterAPI.Response)
    (round fuel : Nat) :
    OpenRouterAPI.generate_text_fuel resp round (fuel + 1) =
      (match resp round with
       | OpenRouterAPI.Response.timeout =>
         (match OpenRouterAPI.generate_text_fuel resp (round + 1) fuel with
          | none => none
          | some (r, sleeps) => some (r, 2 :: sleeps))
       | OpenRouterAPI.Response.httpError msg => some (Except.error msg, [])
       | OpenRouterAPI.Response.okNoChoices =>
         some (Except.error "No se obtuvo texto de OpenRouter", [])
       | OpenRouterAPI.Response.okText t => some (Except.ok t, [])) := rfl

/-- If rounds `j, …, j+n-1` time out and round `j+n` answers with `text`,
`generate_text` terminates after `n` recursive self-calls, returning the
text with `n` two-second sleeps — for any `n`, showing the recursion has no
attempt limit. -/
theorem generate_text_fuel_ok (resp : Nat → OpenRouterAPI.Response)
    (text : String) :
    ∀ (n j : Nat),
      (∀ i, j ≤ i → i < j + n → resp i = OpenRouterAPI.Response.timeout) →
      resp (j + n) = OpenRouterAPI.Response.okText text →
      OpenRouterAPI.generate_text_fuel resp j (n + 1) =
        some (Except.ok text, List.replicate n 2) := by
  intro n
  induction n with
  | zero =>
    intro j _h ht
    simp only [Nat.add_zero] at ht
    simp [OpenRouterAPI.generate_text_fuel, ht]
  | succ n ih =>
    intro j h ht
    have hj : resp j = OpenRouterAPI.Response.timeout :=
      h j (Nat.le_refl _) (by omega)
    have step := ih (j + 1)
      (fun i h1 h2 => h i (by omega) (by omega))
      (by have he : j + 1 + n = j + (n + 1) := by omega
          rw [he]; exact ht)
    rw [generate_text_fuel_succ]
    simp only [hj, step, List.replicate_succ]

/-- C9: `OpenRouterAPI.generate_text` is not bounded by the configured
retry count.  On a timeout it sleeps 2 seconds and re-invokes itself with
the same arguments: against a provider that always times out it never
terminates (no finite fuel suffices), while a provider that times out `k`
times — for any `k`, in particular `k` far above `MAX_RETRIES = 3` — still
leads to a successful answer after `k` hidden retries and `k` two-second
sleeps. -/
theorem openrouter_timeout_unbounded :
    (∀ fuel round,
      OpenRouterAPI.generate_text_fuel OpenRouterAPI.alwaysTimeout round
        fuel = none) ∧
    (∀ k text,
      OpenRouterAPI.generate_text_fuel (OpenRouterAPI.timeoutsThen k text) 0
        (k + 1) = some (Except.ok text, List.replicate k 2)) ∧
    ModelConfig.MAX_RETRIES = 3 := by
  refine ⟨?_, ?_, rfl⟩
  · intro fuel
    induction fuel with
    | zero => intro round; rfl
    | succ n ih =>
      intro round
      simp only [OpenRouterAPI.generate_text_fuel, OpenRouterAPI.alwaysTimeout,
        ih (round + 1)]
  · intro k text
    refine generate_text_fuel_ok (OpenRouterAPI.timeoutsThen k text) text k 0
      (fun i h1 h2 => ?_) ?_
    · simp only [OpenRouterAPI.timeoutsThen]
      rw [if_pos (by omega)]
    · simp only [OpenRouterAPI.timeoutsThen, Nat.zero_add]
      rw [if_neg (by omega)]

/-- The retry loop only ever appends to the error log. -/
theorem executeAttempts_log_extends {σ α : Type}
    (f : Nat → σ → Except String α × σ) (d maxR : Nat) (mdl : String) :
    ∀ (remaining attempt : Nat) (s : σ) (log : List ErrorEntry)
      (sleeps : List Nat) (lastErr : Option String),
      ∃ tail, (executeAttempts f d maxR mdl remaining attempt s log sleeps
        lastErr).2.2.1 = log ++ tail := by
  intro remaining
  induction remaining with
  | zero =>
    intro attempt s log sleeps lastErr
    exact ⟨[], by simp [executeAttempts]⟩
  | succ r ih =>
    intro attempt s log sleeps lastErr
    rw [executeAttempts_succ]
    rcases hf : f attempt s with ⟨res, s1⟩
    cases res with
    | ok v => exact ⟨[], by simp⟩
    | error e =>
      obtain ⟨tail, htail⟩ := ih (attempt + 1) s1 (log ++ [⟨attempt, e, mdl⟩])
        (if attempt < maxR then sleeps ++ [d * 2 ^ (attempt - 1)] else sleeps)
        (some e)
      exact ⟨⟨attempt, e, mdl⟩ :: tail, by
        simp only [htail, List.append_assoc, List.singleton_append]⟩

/-- Lemma: `build_prompt` always returns the state whose error log is the one the
Gemini retry loop produced, whichever branch is taken. -/
theorem build_prompt_state_eq (st : ModelA.State) (env : Env)
    (idea style : String) (personajes : Option (List String))
    (image_analysis : Option String) :
    (ModelA.build_prompt st env idea style personajes image_analysis).2.1 =
      { st with retry_handler := { st.retry_handler with error_log :=
          (st.retry_handler.execute_pure
            (fun attempt => env.gemini attempt
              (ModelA.user_message_of idea style personajes image_analysis))
            "unknown").2.1 } } := by
  simp only [ModelA.build_prompt]
  cases hre : (st.retry_handler.execute_pure
      (fun attempt => env.gemini attempt
        (ModelA.user_message_of idea style personajes image_analysis))
      "unknown").1 with
  | ok p => rfl
  | error re =>
    cases hor : env.openrouter 1
        ⟨ModelA.user_message_of idea style personajes image_analysis,
         ModelConfig.MODELO_B_VISION, some PromptTemplates.SYSTEM_PROMPT_A,
         (7 : Rat)/10⟩ with
    | ok p => rfl
    | error efb => rfl

/-- A `build_prompt` call only appends to the `ModelA` error log. -/
theorem build_prompt_log_extends (st : ModelA.State) (env : Env)
    (idea style : String) (personajes : Option (List String))
    (image_analysis : Option String) :
    ∃ tail,
      (ModelA.build_prompt st env idea style personajes
        image_analysis).2.1.retry_handler.error_log =
      st.retry_handler.error_log ++ tail := by
  rw [build_prompt_state_eq]
  exact executeAttempts_log_extends _ st.retry_handler.delay
    st.retry_handler.max_retries "unknown" st.retry_handler.max_retries 1 ()
    st.retry_handler.error_log [] none

/-- An `analyze_image` call only appends to the `ModelB` error log. -/
theorem analyze_image_log_extends (st : ModelB.State) (env : Env) :
    ∃ tail,
      (ModelB.analyze_image st env).2.1.retry_handler.error_log =
      st.retry_handler.error_log ++ tail :=
  executeAttempts_log_extends
    (fun attempt s => ModelB.analyze_with_api env attempt s
      ModelB.ANALYSIS_PROMPT)
    st.retry_handler.delay st.retry_handler.max_retries "unknown"
    st.retry_handler.max_retries 1 (st.current_model, [])
    st.retry_handler.error_log [] none

/-- A whole `process_request` only appends to the error logs of both
instances. -/
theorem process_request_log_extends (st : Orchestrator.State) (env : Env)
    (idea style : String) (personajes : Option (List String))
    (image : Option (List Nat)) :
    (∃ tailA,
      (Orchestrator.process_request st env idea style personajes
        image).2.1.model_a.retry_handler.error_log =
      st.model_a.retry_handler.error_log ++ tailA) ∧
    (∃ tailB,
      (Orchestrator.process_request st env idea style personajes
        image).2.1.model_b.retry_handler.error_log =
      st.model_b.retry_handler.error_log ++ tailB) := by
  cases image with
  | none =>
    exact ⟨build_prompt_log_extends st.model_a env idea style personajes none,
      ⟨[], by simp [Orchestrator.process_request]⟩⟩
  | some img =>
    cases himg : img.isEmpty with
    | true =>
      constructor
      · have h := build_prompt_log_extends st.model_a env idea style
          personajes none
        simpa [Orchestrator.process_request, himg] using h
      · exact ⟨[], by simp [Orchestrator.process_request, himg]⟩
    | false =>
      cases hana : (ModelB.analyze_image st.model_b env).1 with
      | ok analysis =>
        constructor
        · have h := build_prompt_log_extends st.model_a env idea style
            personajes (some analysis)
          simpa [Orchestrator.process_request, himg, hana] using h
        · have h := analyze_image_log_extends st.model_b env
          simpa [Orchestrator.process_request, himg, hana] using h
      | error re =>
        constructor
        · have h := build_prompt_log_extends st.model_a env idea style
            personajes none
          simpa [Orchestrator.process_request, himg, hana] using h
        · have h := analyze_image_log_extends st.model_b env
          simpa [Orchestrator.process_request, himg, hana] using h

/-- C10: the retry error log is not per-request.  Each request only appends
to the `ModelA` and `ModelB` error logs of the single orchestrator state
(`main.py` constructs one module-level `PromptChainOrchestrator`, whose
`ModelA`/`ModelB` each construct one `RetryHandler` in `__init__`), so the
entries recorded while serving one request are still present — as a prefix —
in the log seen by every later request served by the same process. -/
theorem errorLog_grows_across_requests :
    (∀ (st : Orchestrator.State) (env : Env) (idea style : String)
       (personajes : Option (List String)) (image : Option (List Nat)),
      (∃ tailA,
        (Orchestrator.process_request st env idea style personajes
          image).2.1.model_a.retry_handler.error_log =
        st.model_a.retry_handler.error_log ++ tailA) ∧
      (∃ tailB,
        (Orchestrator.process_request st env idea style personajes
          image).2.1.model_b.retry_handler.error_log =
        st.model_b.retry_handler.error_log ++ tailB)) ∧
    (∀ (st : Orchestrator.State) (env1 : Env) (idea1 style1 : String)
       (personajes1 : Option (List String)) (image1 : Option (List Nat))
       (env2 : Env) (idea2 style2 : String)
       (personajes2 : Option (List String)) (image2 : Option (List Nat)),
      ∃ t1 t2,
        (Orchestrator.process_request st env1 idea1 style1 personajes1
          image1).2.1.model_a.retry_handler.error_log =
          st.model_a.retry_handler.error_log ++ t1 ∧
        (Orchestrator.process_request
            (Orchestrator.process_request st env1 idea1 style1 personajes1
              image1).2.1
            env2 idea2 style2 personajes2
            image2).2.1.model_a.retry_handler.error_log =
          st.model_a.retry_handler.error_log ++ t1 ++ t2) := by
  refine ⟨process_request_log_extends, ?_⟩
  intro st env1 idea1 style1 personajes1 image1 env2 idea2 style2
    personajes2 image2
  obtain ⟨t1, h1⟩ := (process_request_log_extends st env1 idea1 style1
    personajes1 image1).1
  obtain ⟨t2, h2⟩ := (process_request_log_extends
    (Orchestrator.process_request st env1 idea1 style1 personajes1
      image1).2.1
    env2 idea2 style2 personajes2 image2).1
  exact ⟨t1, t2, h1, by rw [h2, h1, List.append_assoc]⟩
